import Mathlib

/-!
Verification of the MoorCare peatland conservation upload workflow
(src/upload_to_databricks.py) against its natural-language specification.

The script is a linear sequence of SDK calls: create schema, create volume,
upload CSV files to a volume, then a local-only table-preparation step.
We embed the workflow shallowly: external calls become values supplied by an
environment record, the remote catalog/volume/file state becomes an explicit
`RemoteState`, and Python exceptions become `Except String` values with the
source's try/except blocks embedded as matches on those values.
-/

namespace MoorCare

/-- File content, one natural number per byte (embedding of Python bytes). -/
abbrev Bytes := List Nat

/-- Configuration constant CATALOG (upload_to_databricks.py line 16). -/
def CATALOG : String := "demos"

/-- Configuration constant SCHEMA (line 17). -/
def SCHEMA : String := "moorcare"

/-- Configuration constant VOLUME (line 18). -/
def VOLUME : String := "data_files"

/-- Configuration constant DATA_DIR (line 19). -/
def DATA_DIR : String := "data"

/-- Result of one backing-store call: Python normal return, or the text of a
raised exception (`str(e)`). -/
abbrev CallResult := Except String Unit

/-- Embeds Python `str.lower()` character-wise (`Char.toLower` lowercases the
ASCII letters, which covers the pattern being matched). -/
def lowerChars (s : String) : List Char := s.toList.map Char.toLower

/-- Embeds the Python test `"already exists" in str(e).lower()` used at
lines 46 and 63: case-insensitive substring match. -/
def alreadyExists (msg : String) : Bool :=
  decide ("already exists".toList <:+: lowerChars msg)

/-- Observable events of a run: one per printed progress/outcome line that the
claims talk about. -/
inductive Event where
  | schemaCreated
  | schemaExisted
  | schemaWarn (msg : String)
  | volumeCreated
  | volumeExisted
  | volumeWarn (msg : String)
  | noFilesFound
  | uploadOk (remote : String)
  | uploadErr (file : String) (msg : String)
  | tableOk (name : String) (rows : Nat) (cols : Nat)
  | tableErr (name : String) (msg : String)
  | summaryTablesCreated
deriving Repr, DecidableEq

/-- The remote Databricks state visible to this workflow: which schemas and
volumes exist, and the byte content stored at each volume file path. -/
structure RemoteState where
  schemas : List (String × String)
  volumes : List (String × String × String)
  files : List (String × Bytes)
deriving Repr, DecidableEq

/-- Modelled from the spec: the schema-management API (`w.schemas.create`,
spec section 6) is not part of src/. It is an idempotent-intent create that
fails with a message containing "already exists" when the schema is present;
`fault` injects any other failure the backing store may report. -/
def storeCreateSchema (st : RemoteState) (cat sch : String) (fault : Option String) :
    RemoteState × CallResult :=
  if (cat, sch) ∈ st.schemas then
    (st, .error "Schema already exists")
  else
    match fault with
    | some msg => (st, .error msg)
    | none => ({ st with schemas := (cat, sch) :: st.schemas }, .ok ())

/-- Modelled from the spec: the volume-management API (`w.volumes.create`,
spec section 6) is not part of src/; same shape as `storeCreateSchema`. -/
def storeCreateVolume (st : RemoteState) (cat sch vol : String) (fault : Option String) :
    RemoteState × CallResult :=
  if (cat, sch, vol) ∈ st.volumes then
    (st, .error "Volume already exists")
  else
    match fault with
    | some msg => (st, .error msg)
    | none => ({ st with volumes := (cat, sch, vol) :: st.volumes }, .ok ())

/-- Embeds the try/except around `w.schemas.create` (lines 38-49): success
prints created; a failure whose text contains "already exists" (any case) is
treated as success; anything else becomes a warning. -/
def schemaCreateEvent : CallResult → Event
  | .ok _ => .schemaCreated
  | .error msg => if alreadyExists msg then .schemaExisted else .schemaWarn msg

/-- Embeds the try/except around `w.volumes.create` (lines 53-66). -/
def volumeCreateEvent : CallResult → Event
  | .ok _ => .volumeCreated
  | .error msg => if alreadyExists msg then .volumeExisted else .volumeWarn msg

/-- The environment of one run: outcome of client initialisation, injected
backing-store faults, the glob result, and the behaviour of local reads,
uploads and CSV parsing. -/
structure Env where
  clientInit : Except String Unit
  schemaFault : Option String
  volumeFault : Option String
  globResult : List String
  readLocal : String → Except String Bytes
  uploadFault : String → Option String
  readCsvResult : String → Except String (Nat × Nat)

/-- Embeds `os.path.basename` (line 80) for slash-separated paths. -/
def basename (p : String) : String := (p.splitOn "/").getLastD ""

/-- Embeds `volume_path = f"/Volumes/{CATALOG}/{SCHEMA}/{VOLUME}"` (line 70). -/
def volumePath : String := "/Volumes/" ++ CATALOG ++ "/" ++ SCHEMA ++ "/" ++ VOLUME

/-- The remote object path as a function of all four name parts
(spec section 3 invariant). -/
def remotePathOf (cat sch vol filename : String) : String :=
  "/Volumes/" ++ cat ++ "/" ++ sch ++ "/" ++ vol ++ "/" ++ filename

/-- Embeds `remote_path = f"{volume_path}/{filename}"` (line 81). -/
def remotePath (filename : String) : String := volumePath ++ "/" ++ filename

/-- Modelled from the spec: `w.files.upload(remote_path, content, overwrite=True)`
(lines 89-93) is a files-API call outside src/; per spec sections 4.2 and 6 it
replaces any existing remote object at the same path, never appends. -/
def uploadOverwrite (files : List (String × Bytes)) (path : String) (content : Bytes) :
    List (String × Bytes) :=
  (path, content) :: files.filter (fun e => e.1 != path)

/-- One iteration of the upload loop (lines 79-96): compute the remote path,
read the local file and upload inside a single try; both the read failure and
the upload failure are caught and reported, leaving the store unchanged. -/
def uploadOne (env : Env) (files : List (String × Bytes)) (csvFile : String) :
    List (String × Bytes) × Event :=
  match env.readLocal csvFile with
  | .error msg => (files, .uploadErr csvFile msg)
  | .ok content =>
    match env.uploadFault (remotePath (basename csvFile)) with
    | some msg => (files, .uploadErr csvFile msg)
    | none => (uploadOverwrite files (remotePath (basename csvFile)) content,
        .uploadOk (remotePath (basename csvFile)))

/-- The event produced by attempting one file, which depends only on the
environment and the file, never on the remote store or on other files. -/
def attemptEvent (env : Env) (csvFile : String) : Event :=
  match env.readLocal csvFile with
  | .error msg => .uploadErr csvFile msg
  | .ok _ =>
    match env.uploadFault (remotePath (basename csvFile)) with
    | some msg => .uploadErr csvFile msg
    | none => .uploadOk (remotePath (basename csvFile))

/-- The whole upload loop over the glob matches (lines 79-96). -/
def uploadAll (env : Env) (files : List (String × Bytes)) :
    List String → List (String × Bytes) × List Event
  | [] => (files, [])
  | c :: rest =>
    let r := uploadOne env files c
    let rs := uploadAll env r.1 rest
    (rs.1, r.2 :: rs.2)

/-- The `table_configs` dict (lines 101-114), as (table name, csv file) pairs
in iteration order. -/
def table_configs : List (String × String) :=
  [("synthetic_peatland_sites", "synthetic-peatland-sites.csv"),
   ("synthetic_monitoring_data", "synthetic-monitoring-data.csv"),
   ("synthetic_restoration_projects", "synthetic-restoration-projects.csv")]

/-- One iteration of the table loop (lines 116-135): reads the local CSV with
pandas to infer row/column counts and prints them; no remote call occurs. -/
def tableEvent (env : Env) (cfg : String × String) : Event :=
  match env.readCsvResult (DATA_DIR ++ "/" ++ cfg.2) with
  | .ok rc => .tableOk cfg.1 rc.1 rc.2
  | .error msg => .tableErr cfg.1 msg

/-- Step 4 of the workflow (lines 98-135). -/
def tablePhase (env : Env) : List Event := table_configs.map (tableEvent env)

/-- Steps 1 and 2 of the workflow (lines 36-66): schema creation then volume
creation, each with its try/except classification. -/
def provisionPhase (env : Env) (st : RemoteState) : RemoteState × Event × Event :=
  let s := storeCreateSchema st CATALOG SCHEMA env.schemaFault
  let v := storeCreateVolume s.1 CATALOG SCHEMA VOLUME env.volumeFault
  (v.1, schemaCreateEvent s.2, volumeCreateEvent v.2)

/-- The body of `main` after client initialisation (lines 29-150): provision,
then either the early return when the glob matches nothing (lines 74-77), or
upload, table preparation and the final summary. -/
def runMainCore (env : Env) (st : RemoteState) : RemoteState × List Event :=
  let p := provisionPhase env st
  if env.globResult.isEmpty then
    (p.1, [p.2.1, p.2.2, .noFilesFound])
  else
    let u := uploadAll env p.1.files env.globResult
    ({ p.1 with files := u.1 },
     p.2.1 :: p.2.2 :: (u.2 ++ tablePhase env ++ [.summaryTablesCreated]))

/-- `main` (lines 21-150): `WorkspaceClient()` at line 27 is the only call
outside a try/except, so only a configuration failure there escapes. -/
def runMain (env : Env) (st : RemoteState) : Except String (RemoteState × List Event) :=
  match env.clientInit with
  | .error e => .error e
  | .ok _ => .ok (runMainCore env st)

/-- Splitting a character sequence on a separator character, Python
`str.split` semantics: `N` separators produce `N + 1` fragments, empty
fragments included. -/
def splitOnChar (sep : Char) : List Char → List (List Char)
  | [] => [[]]
  | c :: rest =>
    let r := splitOnChar sep rest
    if c = sep then [] :: r
    else
      match r with
      | [] => [[c]]
      | h :: t => (c :: h) :: t

/-- Python `str.strip()`: drop whitespace from both ends. -/
def trimChars (l : List Char) : List Char :=
  ((l.dropWhile Char.isWhitespace).reverse.dropWhile Char.isWhitespace).reverse

/-- Whether the text begins with the line-comment marker `--`. -/
def beginsWithComment : List Char → Bool
  | '-' :: '-' :: _ => true
  | _ => false

/-- Modelled from the spec: a fragment is discarded when, after trimming, it
is empty or begins with the line-comment marker (spec section 4.3 step 2). -/
def isDiscarded (l : List Char) : Bool := l.isEmpty || beginsWithComment l

/-- Modelled from the spec: the Statement Runner (spec section 4.3) lives in a
sibling script that is not under src/. Steps 1 and 2: split the DDL text on
the terminator `;`, trim each fragment, discard empty and pure-comment
fragments. -/
def statementsOf (ddl : String) : List String :=
  (((splitOnChar ';' ddl.toList).map trimChars).filter
    (fun f => !(isDiscarded f))).map (fun f => String.mk f)

/-- Outcome of executing one statement, 1-indexed for reporting. -/
inductive StmtResult where
  | ok (idx : Nat) (stmt : String)
  | failed (idx : Nat) (stmt : String) (msg : String)
deriving Repr, DecidableEq

/-- The surviving statement a result refers to. -/
def StmtResult.stmt : StmtResult → String
  | .ok _ s => s
  | .failed _ s _ => s

/-- Modelled from the spec: execute one statement, catching a failure and
reporting it with the statement index and error text (spec section 4.3
steps 3-4). -/
def execOne (exec : String → Except String Unit) (idx : Nat) (stmt : String) : StmtResult :=
  match exec stmt with
  | .ok _ => .ok idx stmt
  | .error msg => .failed idx stmt msg

/-- Modelled from the spec: run the surviving statements in order, starting
from a given 1-based index, never aborting on a failure. -/
def runStatements (exec : String → Except String Unit) : Nat → List String → List StmtResult
  | _, [] => []
  | i, s :: rest => execOne exec i s :: runStatements exec (i + 1) rest

/-- Modelled from the spec: `run_script(ddl_text)` of the Statement Runner
(spec section 4.3), absent from src/. -/
def run_script (exec : String → Except String Unit) (ddl : String) : List StmtResult :=
  runStatements exec 1 (statementsOf ddl)

/-! ### Helper lemmas -/

theorem schemaCreateEvent_error (msg : String) :
    schemaCreateEvent (.error msg) =
      if alreadyExists msg then .schemaExisted else .schemaWarn msg := rfl

theorem volumeCreateEvent_error (msg : String) :
    volumeCreateEvent (.error msg) =
      if alreadyExists msg then .volumeExisted else .volumeWarn msg := rfl

theorem alreadyExists_storeSchemaMsg : alreadyExists "Schema already exists" = true := by
  decide

theorem storeCreateSchema_of_mem (st : RemoteState) (cat sch : String)
    (fault : Option String) (h : (cat, sch) ∈ st.schemas) :
    storeCreateSchema st cat sch fault = (st, .error "Schema already exists") := by
  simp [storeCreateSchema, h]

theorem mem_storeCreateSchema_self (st : RemoteState) (cat sch : String) :
    (cat, sch) ∈ ((storeCreateSchema st cat sch none).1).schemas := by
  unfold storeCreateSchema
  by_cases h : (cat, sch) ∈ st.schemas <;> simp [h]

/-! ### C1 -/

/-- C1: for both provisioning calls (schema creation and volume creation), a
backing-store failure whose message contains "already exists" in any letter
case is classified as success (the existed outcome); every other failure
message is classified as a non-fatal warning, and no other outcome is
possible for a failure. -/
theorem provision_failure_classification (msg : String) :
    (alreadyExists msg = true →
      schemaCreateEvent (.error msg) = .schemaExisted ∧
      volumeCreateEvent (.error msg) = .volumeExisted) ∧
    (alreadyExists msg = false →
      schemaCreateEvent (.error msg) = .schemaWarn msg ∧
      volumeCreateEvent (.error msg) = .volumeWarn msg) ∧
    (schemaCreateEvent (.error msg) = .schemaExisted ∨
      schemaCreateEvent (.error msg) = .schemaWarn msg) ∧
    (volumeCreateEvent (.error msg) = .volumeExisted ∨
      volumeCreateEvent (.error msg) = .volumeWarn msg) := by
  by_cases h : alreadyExists msg <;>
    simp [schemaCreateEvent, volumeCreateEvent, h]

/-- C1 witness: the classification evaluated at the concrete failure message
"Catalog object ALREADY Exists" (mixed case). -/
theorem provision_failure_classification_witness :
    (alreadyExists "Catalog object ALREADY Exists" = true →
      schemaCreateEvent (.error "Catalog object ALREADY Exists") = .schemaExisted ∧
      volumeCreateEvent (.error "Catalog object ALREADY Exists") = .volumeExisted) ∧
    (alreadyExists "Catalog object ALREADY Exists" = false →
      schemaCreateEvent (.error "Catalog object ALREADY Exists") = .schemaWarn
        "Catalog object ALREADY Exists" ∧
      volumeCreateEvent (.error "Catalog object ALREADY Exists") = .volumeWarn
        "Catalog object ALREADY Exists") ∧
    (schemaCreateEvent (.error "Catalog object ALREADY Exists") = .schemaExisted ∨
      schemaCreateEvent (.error "Catalog object ALREADY Exists") = .schemaWarn
        "Catalog object ALREADY Exists") ∧
    (volumeCreateEvent (.error "Catalog object ALREADY Exists") = .volumeExisted ∨
      volumeCreateEvent (.error "Catalog object ALREADY Exists") = .volumeWarn
        "Catalog object ALREADY Exists") :=
  provision_failure_classification "Catalog object ALREADY Exists"

/-! ### C9 -/

/-- C9: for every starting remote state and every (catalog, schema) pair,
calling the schema-provisioning step twice in succession (no injected store
fault) never fails the second time: the second call's store result is the
"already exists" failure, it is classified as success, and the remote state
is unchanged by the second call. -/
theorem ensure_namespace_idempotent (st : RemoteState) (cat sch : String) :
    (storeCreateSchema ((storeCreateSchema st cat sch none).1) cat sch none).2 =
      .error "Schema already exists" ∧
    schemaCreateEvent
      ((storeCreateSchema ((storeCreateSchema st cat sch none).1) cat sch none).2) =
      .schemaExisted ∧
    (storeCreateSchema ((storeCreateSchema st cat sch none).1) cat sch none).1 =
      (storeCreateSchema st cat sch none).1 := by
  rw [storeCreateSchema_of_mem _ _ _ _ (mem_storeCreateSchema_self st cat sch)]
  exact ⟨rfl, by simp [schemaCreateEvent, alreadyExists_storeSchemaMsg], rfl⟩

/-! ### Statement Runner lemmas -/

theorem stmt_execOne (exec : String → Except String Unit) (i : Nat) (s : String) :
    (execOne exec i s).stmt = s := by
  unfold execOne
  cases exec s <;> rfl

theorem runStatements_length (exec : String → Except String Unit) (i : Nat)
    (l : List String) : (runStatements exec i l).length = l.length := by
  induction l generalizing i with
  | nil => rfl
  | cons s t ih => simp [runStatements, ih]

theorem runStatements_map_stmt (exec : String → Except String Unit) (i : Nat)
    (l : List String) : (runStatements exec i l).map StmtResult.stmt = l := by
  induction l generalizing i with
  | nil => rfl
  | cons s t ih => simp [runStatements, stmt_execOne, ih]

theorem runStatements_getD (exec : String → Except String Unit) (i j : Nat)
    (l : List String) (d : StmtResult) (h : j < l.length) :
    (runStatements exec i l).getD j d = execOne exec (i + j) (l.getD j "") := by
  induction l generalizing i j with
  | nil => simp at h
  | cons s t ih =>
    cases j with
    | zero => simp [runStatements]
    | succ k =>
      have hk : k < t.length := by simpa using h
      have := ih (i + 1) k hk
      simp only [runStatements, List.getD_cons_succ, this]
      congr 1
      omega

theorem length_filter_not {α : Type} (p : α → Bool) (l : List α) :
    (l.filter (fun a => !(p a))).length = l.length - (l.filter p).length := by
  induction l with
  | nil => rfl
  | cons a t ih =>
    have hle := t.length_filter_le p
    by_cases h : p a
    · simp [List.filter_cons, h, ih]
    · simp [List.filter_cons, h, ih]
      omega

/-! ### C2 -/

/-- C2: for every DDL script, splitting on the terminator yields some number
`N` of fragments of which `k` are empty or pure-comment after trimming, and
`run_script` attempts exactly `N - k` statements; the attempted statements are
exactly the surviving trimmed fragments in their original order within the
script. -/
theorem run_script_attempt_count (exec : String → Except String Unit) (ddl : String) :
    (run_script exec ddl).length =
      ((splitOnChar ';' ddl.toList).map trimChars).length -
        (((splitOnChar ';' ddl.toList).map trimChars).filter isDiscarded).length ∧
    (run_script exec ddl).map StmtResult.stmt =
      (((splitOnChar ';' ddl.toList).map trimChars).filter
        (fun f => !(isDiscarded f))).map (fun f => String.mk f) := by
  constructor
  · rw [run_script, runStatements_length, statementsOf, List.length_map,
      length_filter_not]
  · rw [run_script, runStatements_map_stmt, statementsOf]

/-! ### C3 -/

/-- C3: a statement execution failure at position `i` (0-based; reported
1-indexed) is caught and reported as a failed result carrying the statement
and the error text, the batch is never aborted (one result per surviving
statement), and the statement at position `i + 1` is still executed, its
outcome determined solely by running it. -/
theorem statement_failure_does_not_abort (exec : String → Except String Unit)
    (ddl : String) (i : Nat) (msg : String)
    (h : i < (statementsOf ddl).length)
    (hfail : exec ((statementsOf ddl).getD i "") = .error msg) :
    (run_script exec ddl).getD i (.ok 0 "") =
      .failed (i + 1) ((statementsOf ddl).getD i "") msg ∧
    (run_script exec ddl).length = (statementsOf ddl).length ∧
    (i + 1 < (statementsOf ddl).length →
      (run_script exec ddl).getD (i + 1) (.ok 0 "") =
        execOne exec (i + 2) ((statementsOf ddl).getD (i + 1) "")) := by
  refine ⟨?_, runStatements_length exec 1 (statementsOf ddl), ?_⟩
  · have h1 : 1 + i = i + 1 := Nat.add_comm 1 i
    rw [run_script, runStatements_getD exec 1 i _ _ h, h1]
    unfold execOne
    rw [hfail]
  · intro h2
    rw [run_script, runStatements_getD exec 1 (i + 1) _ _ h2]
    congr 1
    omega

/-- C3 witness: in the script
`"CREATE A; BAD; -- note;; CREATE B"` the statement at position 1 is `BAD`;
with an executor failing exactly on `BAD`, the failure is reported at
1-indexed position 2 and the following statement `CREATE B` still runs. -/
theorem statement_failure_does_not_abort_witness :
    (run_script (fun s => if s = "BAD" then .error "no such table" else .ok ())
        "CREATE A; BAD; -- note;; CREATE B").getD 1 (.ok 0 "") =
      .failed 2
        ((statementsOf "CREATE A; BAD; -- note;; CREATE B").getD 1 "")
        "no such table" ∧
    (run_script (fun s => if s = "BAD" then .error "no such table" else .ok ())
        "CREATE A; BAD; -- note;; CREATE B").length =
      (statementsOf "CREATE A; BAD; -- note;; CREATE B").length ∧
    (1 + 1 < (statementsOf "CREATE A; BAD; -- note;; CREATE B").length →
      (run_script (fun s => if s = "BAD" then .error "no such table" else .ok ())
          "CREATE A; BAD; -- note;; CREATE B").getD 2 (.ok 0 "") =
        execOne (fun s => if s = "BAD" then .error "no such table" else .ok ()) 3
          ((statementsOf "CREATE A; BAD; -- note;; CREATE B").getD 2 "")) :=
  statement_failure_does_not_abort
    (fun s => if s = "BAD" then .error "no such table" else .ok ())
    "CREATE A; BAD; -- note;; CREATE B" 1 "no such table" (by decide) rfl

/-! ### Workflow helper lemmas -/

theorem files_storeCreateSchema (st : RemoteState) (cat sch : String)
    (fault : Option String) : ((storeCreateSchema st cat sch fault).1).files = st.files := by
  unfold storeCreateSchema
  by_cases h : (cat, sch) ∈ st.schemas
  · simp [h]
  · cases fault <;> simp [h]

theorem files_storeCreateVolume (st : RemoteState) (cat sch vol : String)
    (fault : Option String) :
    ((storeCreateVolume st cat sch vol fault).1).files = st.files := by
  unfold storeCreateVolume
  by_cases h : (cat, sch, vol) ∈ st.volumes
  · simp [h]
  · cases fault <;> simp [h]

theorem schemas_storeCreateVolume (st : RemoteState) (cat sch vol : String)
    (fault : Option String) :
    ((storeCreateVolume st cat sch vol fault).1).schemas = st.schemas := by
  unfold storeCreateVolume
  by_cases h : (cat, sch, vol) ∈ st.volumes
  · simp [h]
  · cases fault <;> simp [h]

theorem storeCreateVolume_fault (st : RemoteState) (cat sch vol : String) (msg : String)
    (h : (cat, sch, vol) ∉ st.volumes) :
    storeCreateVolume st cat sch vol (some msg) = (st, .error msg) := by
  simp [storeCreateVolume, h]

theorem files_provisionPhase (env : Env) (st : RemoteState) :
    ((provisionPhase env st).1).files = st.files := by
  unfold provisionPhase
  rw [files_storeCreateVolume, files_storeCreateSchema]

/-! ### C4 -/

/-- C4: once client initialisation (the ConfigurationMissing check) has
succeeded, the workflow always reaches normal completion: every provisioning,
upload and table failure is caught, so `main` never returns an error to its
caller. -/
theorem workflow_always_completes (env : Env) (st : RemoteState)
    (h : env.clientInit = .ok ()) : (runMain env st).isOk = true := by
  unfold runMain
  rw [h]
  rfl

/-- C4 witness: a concrete environment with successful initialisation. -/
theorem workflow_always_completes_witness :
    (runMain
      ⟨.ok (), none, none, [], fun _ => .ok [], fun _ => none, fun _ => .ok (0, 0)⟩
      ⟨[], [], []⟩).isOk = true :=
  workflow_always_completes
    ⟨.ok (), none, none, [], fun _ => .ok [], fun _ => none, fun _ => .ok (0, 0)⟩
    ⟨[], [], []⟩ rfl

/-! ### C7 -/

/-- C7: when the glob matches zero local files, the upload loop over the empty
match list returns an empty result without failing, and the workflow
short-circuits after reporting it: the run ends with exactly the two
provisioning events and the no-files report, no upload is attempted, the
table stage is skipped, and the remote file store is untouched. -/
theorem empty_glob_short_circuit (env : Env) (st : RemoteState)
    (hc : env.clientInit = .ok ()) (hg : env.globResult = []) :
    runMain env st = .ok ((provisionPhase env st).1,
      [(provisionPhase env st).2.1, (provisionPhase env st).2.2, .noFilesFound]) ∧
    ((provisionPhase env st).1).files = st.files ∧
    uploadAll env st.files [] = (st.files, []) := by
  refine ⟨?_, files_provisionPhase env st, rfl⟩
  unfold runMain
  rw [hc]
  unfold runMainCore
  rw [hg]
  rfl

/-- C7 witness: a concrete environment whose glob matches nothing. -/
theorem empty_glob_short_circuit_witness :
    runMain
        ⟨.ok (), none, none, [], fun _ => .ok [], fun _ => none, fun _ => .ok (0, 0)⟩
        ⟨[], [], []⟩ =
      .ok ((provisionPhase
          ⟨.ok (), none, none, [], fun _ => .ok [], fun _ => none, fun _ => .ok (0, 0)⟩
          ⟨[], [], []⟩).1,
        [(provisionPhase
            ⟨.ok (), none, none, [], fun _ => .ok [], fun _ => none, fun _ => .ok (0, 0)⟩
            ⟨[], [], []⟩).2.1,
         (provisionPhase
            ⟨.ok (), none, none, [], fun _ => .ok [], fun _ => none, fun _ => .ok (0, 0)⟩
            ⟨[], [], []⟩).2.2,
         .noFilesFound]) ∧
    ((provisionPhase
        ⟨.ok (), none, none, [], fun _ => .ok [], fun _ => none, fun _ => .ok (0, 0)⟩
        ⟨[], [], []⟩).1).files = RemoteState.files ⟨[], [], []⟩ ∧
    uploadAll
        ⟨.ok (), none, none, [], fun _ => .ok [], fun _ => none, fun _ => .ok (0, 0)⟩
        (RemoteState.files ⟨[], [], []⟩) [] =
      (RemoteState.files ⟨[], [], []⟩, []) :=
  empty_glob_short_circuit
    ⟨.ok (), none, none, [], fun _ => .ok [], fun _ => none, fun _ => .ok (0, 0)⟩
    ⟨[], [], []⟩ rfl rfl

/-! ### Upload lemmas -/

theorem uploadOverwrite_idem (files : List (String × Bytes)) (path : String)
    (c : Bytes) :
    uploadOverwrite (uploadOverwrite files path c) path c =
      uploadOverwrite files path c := by
  unfold uploadOverwrite
  simp [List.filter_cons, List.filter_filter]

theorem lookup_uploadOverwrite (files : List (String × Bytes)) (path : String)
    (c : Bytes) : (uploadOverwrite files path c).lookup path = some c := by
  simp [uploadOverwrite, List.lookup]

theorem count_uploadOverwrite (files : List (String × Bytes)) (path : String)
    (c : Bytes) :
    ((uploadOverwrite files path c).filter (fun e => e.1 == path)).length = 1 := by
  simp [uploadOverwrite, List.filter_cons, List.filter_filter]

theorem uploadOne_snd (env : Env) (files : List (String × Bytes)) (c : String) :
    (uploadOne env files c).2 = attemptEvent env c := by
  unfold uploadOne attemptEvent
  cases env.readLocal c with
  | error msg => rfl
  | ok content => cases env.uploadFault (remotePath (basename c)) <;> rfl

/-! ### C5 -/

/-- C5: the remote object path of an uploaded file is the deterministic
function `/Volumes/{catalog}/{schema}/{volume}/{basename}` of the four name
parts, and re-uploading a file with identical content is idempotent: the
second upload overwrites the same remote object, leaves the remote byte
content unchanged, and creates no duplicate object for that path. -/
theorem upload_idempotent (env : Env) (files : List (String × Bytes))
    (csvFile : String) (content : Bytes)
    (hread : env.readLocal csvFile = .ok content)
    (hfault : env.uploadFault (remotePath (basename csvFile)) = none) :
    remotePath (basename csvFile) =
      remotePathOf CATALOG SCHEMA VOLUME (basename csvFile) ∧
    uploadOne env files csvFile =
      (uploadOverwrite files (remotePath (basename csvFile)) content,
        .uploadOk (remotePath (basename csvFile))) ∧
    uploadOne env (uploadOne env files csvFile).1 csvFile =
      uploadOne env files csvFile ∧
    ((uploadOne env files csvFile).1).lookup (remotePath (basename csvFile)) =
      some content ∧
    (((uploadOne env files csvFile).1).filter
      (fun e => e.1 == remotePath (basename csvFile))).length = 1 := by
  have h2 : uploadOne env files csvFile =
      (uploadOverwrite files (remotePath (basename csvFile)) content,
        .uploadOk (remotePath (basename csvFile))) := by
    unfold uploadOne
    rw [hread, hfault]
  refine ⟨rfl, h2, ?_, ?_, ?_⟩
  · rw [h2]
    unfold uploadOne
    rw [hread, hfault]
    simp [uploadOverwrite_idem]
  · rw [h2]
    exact lookup_uploadOverwrite files (remotePath (basename csvFile)) content
  · rw [h2]
    exact count_uploadOverwrite files (remotePath (basename csvFile)) content

/-- C5 witness: uploading the concrete file
`data/synthetic-peatland-sites.csv` with byte content `[104, 105]` twice. -/
theorem upload_idempotent_witness :
    remotePath (basename "data/synthetic-peatland-sites.csv") =
      remotePathOf CATALOG SCHEMA VOLUME
        (basename "data/synthetic-peatland-sites.csv") ∧
    uploadOne
        ⟨.ok (), none, none, ["data/synthetic-peatland-sites.csv"],
          fun _ => .ok [104, 105], fun _ => none, fun _ => .ok (0, 0)⟩ []
        "data/synthetic-peatland-sites.csv" =
      (uploadOverwrite []
        (remotePath (basename "data/synthetic-peatland-sites.csv")) [104, 105],
        .uploadOk (remotePath (basename "data/synthetic-peatland-sites.csv"))) ∧
    uploadOne
        ⟨.ok (), none, none, ["data/synthetic-peatland-sites.csv"],
          fun _ => .ok [104, 105], fun _ => none, fun _ => .ok (0, 0)⟩
        (uploadOne
          ⟨.ok (), none, none, ["data/synthetic-peatland-sites.csv"],
            fun _ => .ok [104, 105], fun _ => none, fun _ => .ok (0, 0)⟩ []
          "data/synthetic-peatland-sites.csv").1
        "data/synthetic-peatland-sites.csv" =
      uploadOne
        ⟨.ok (), none, none, ["data/synthetic-peatland-sites.csv"],
          fun _ => .ok [104, 105], fun _ => none, fun _ => .ok (0, 0)⟩ []
        "data/synthetic-peatland-sites.csv" ∧
    ((uploadOne
        ⟨.ok (), none, none, ["data/synthetic-peatland-sites.csv"],
          fun _ => .ok [104, 105], fun _ => none, fun _ => .ok (0, 0)⟩ []
        "data/synthetic-peatland-sites.csv").1).lookup
      (remotePath (basename "data/synthetic-peatland-sites.csv")) =
      some [104, 105] ∧
    (((uploadOne
        ⟨.ok (), none, none, ["data/synthetic-peatland-sites.csv"],
          fun _ => .ok [104, 105], fun _ => none, fun _ => .ok (0, 0)⟩ []
        "data/synthetic-peatland-sites.csv").1).filter
      (fun e => e.1 == remotePath (basename "data/synthetic-peatland-sites.csv"))).length
      = 1 :=
  upload_idempotent
    ⟨.ok (), none, none, ["data/synthetic-peatland-sites.csv"],
      fun _ => .ok [104, 105], fun _ => none, fun _ => .ok (0, 0)⟩ []
    "data/synthetic-peatland-sites.csv" [104, 105] rfl rfl

/-! ### C6 -/

/-- C6: a read or upload failure on one file is reported individually and
never aborts the loop: the upload loop produces exactly one event per matched
file, and each file's event is determined solely by attempting that file,
independent of the outcomes of every other file. -/
theorem per_file_failures_isolated (env : Env) (files : List (String × Bytes))
    (csvs : List String) :
    (uploadAll env files csvs).2 = csvs.map (attemptEvent env) ∧
    (uploadAll env files csvs).2.length = csvs.length := by
  have hmap : ∀ fs : List (String × Bytes), ∀ cs : List String,
      (uploadAll env fs cs).2 = cs.map (attemptEvent env) := by
    intro fs cs
    induction cs generalizing fs with
    | nil => rfl
    | cons c rest ih => simp [uploadAll, uploadOne_snd, ih]
  exact ⟨hmap files csvs, by rw [hmap files csvs, List.length_map]⟩

/-! ### C8 -/

/-- C8: a provisioning failure that is not an "already exists" case is
recorded as a warning and the workflow proceeds regardless: when volume
creation fails with such a message, the volume event is the warning, the
remote state is exactly what the schema step left (no rollback of the
partially provisioned namespace), and when files match the glob the upload
and table phases still run to the final summary. -/
theorem provision_warning_non_fatal (env : Env) (st : RemoteState) (msg : String)
    (hmsg : alreadyExists msg = false)
    (hf : env.volumeFault = some msg)
    (hnv : (CATALOG, SCHEMA, VOLUME) ∉
      ((storeCreateSchema st CATALOG SCHEMA env.schemaFault).1).volumes) :
    (provisionPhase env st).2.2 = .volumeWarn msg ∧
    (provisionPhase env st).1 =
      (storeCreateSchema st CATALOG SCHEMA env.schemaFault).1 ∧
    (env.globResult ≠ [] → (runMainCore env st).2 =
      (provisionPhase env st).2.1 :: Event.volumeWarn msg ::
        ((uploadAll env
            ((storeCreateSchema st CATALOG SCHEMA env.schemaFault).1).files
            env.globResult).2 ++ tablePhase env ++ [.summaryTablesCreated])) := by
  have hv : storeCreateVolume ((storeCreateSchema st CATALOG SCHEMA env.schemaFault).1)
      CATALOG SCHEMA VOLUME env.volumeFault =
      ((storeCreateSchema st CATALOG SCHEMA env.schemaFault).1, .error msg) := by
    rw [hf]
    exact storeCreateVolume_fault _ _ _ _ _ hnv
  have hp : provisionPhase env st =
      ((storeCreateSchema st CATALOG SCHEMA env.schemaFault).1,
        schemaCreateEvent (storeCreateSchema st CATALOG SCHEMA env.schemaFault).2,
        .volumeWarn msg) := by
    simp only [provisionPhase]
    rw [hv]
    simp [volumeCreateEvent, hmsg]
  refine ⟨by rw [hp], by rw [hp], ?_⟩
  intro hg
  have hne : env.globResult.isEmpty = false := by
    cases hgr : env.globResult with
    | nil => exact absurd hgr hg
    | cons a t => rfl
  simp [runMainCore, hp, hne]

/-- C8 witness: volume creation failing with the message "permission denied"
while one file matches the glob. -/
theorem provision_warning_non_fatal_witness :
    (provisionPhase
        ⟨.ok (), none, some "permission denied", ["data/synthetic-a.csv"],
          fun _ => .ok [1], fun _ => none, fun _ => .ok (0, 0)⟩
        ⟨[], [], []⟩).2.2 = .volumeWarn "permission denied" ∧
    (provisionPhase
        ⟨.ok (), none, some "permission denied", ["data/synthetic-a.csv"],
          fun _ => .ok [1], fun _ => none, fun _ => .ok (0, 0)⟩
        ⟨[], [], []⟩).1 =
      (storeCreateSchema ⟨[], [], []⟩ CATALOG SCHEMA none).1 ∧
    (["data/synthetic-a.csv"] ≠ ([] : List String) →
      (runMainCore
          ⟨.ok (), none, some "permission denied", ["data/synthetic-a.csv"],
            fun _ => .ok [1], fun _ => none, fun _ => .ok (0, 0)⟩
          ⟨[], [], []⟩).2 =
        (provisionPhase
            ⟨.ok (), none, some "permission denied", ["data/synthetic-a.csv"],
              fun _ => .ok [1], fun _ => none, fun _ => .ok (0, 0)⟩
            ⟨[], [], []⟩).2.1 :: Event.volumeWarn "permission denied" ::
          ((uploadAll
              ⟨.ok (), none, some "permission denied", ["data/synthetic-a.csv"],
                fun _ => .ok [1], fun _ => none, fun _ => .ok (0, 0)⟩
              ((storeCreateSchema ⟨[], [], []⟩ CATALOG SCHEMA none).1).files
              ["data/synthetic-a.csv"]).2 ++
            tablePhase
              ⟨.ok (), none, some "permission denied", ["data/synthetic-a.csv"],
                fun _ => .ok [1], fun _ => none, fun _ => .ok (0, 0)⟩ ++
            [.summaryTablesCreated])) :=
  provision_warning_non_fatal
    ⟨.ok (), none, some "permission denied", ["data/synthetic-a.csv"],
      fun _ => .ok [1], fun _ => none, fun _ => .ok (0, 0)⟩
    ⟨[], [], []⟩ "permission denied" (by decide) rfl (by decide)

theorem uploadAll_readCsv_irrel (env : Env) (f : String → Except String (Nat × Nat))
    (fs : List (String × Bytes)) (cs : List String) :
    uploadAll ⟨env.clientInit, env.schemaFault, env.volumeFault, env.globResult,
      env.readLocal, env.uploadFault, f⟩ fs cs = uploadAll env fs cs := by
  induction cs generalizing fs with
  | nil => rfl
  | cons c rest ih =>
    have h1 : uploadOne ⟨env.clientInit, env.schemaFault, env.volumeFault,
        env.globResult, env.readLocal, env.uploadFault, f⟩ fs c =
        uploadOne env fs c := rfl
    simp [uploadAll, h1, ih]

/-! ### C10 -/

/-- C10: the table-creation step mutates no remote state: the remote state at
the end of a run is exactly the state left by the provisioning and upload
steps, it is unchanged under arbitrary replacement of the table step's
CSV-reading behaviour, and yet a run that uploads files still ends with the
summary that reports the tables as created. -/
theorem table_step_no_remote_mutation (env : Env) (st : RemoteState) :
    (runMainCore env st).1 =
      (if env.globResult.isEmpty then (provisionPhase env st).1
       else { (provisionPhase env st).1 with
              files := (uploadAll env ((provisionPhase env st).1).files
                env.globResult).1 }) ∧
    (∀ f : String → Except String (Nat × Nat),
      (runMainCore
        ⟨env.clientInit, env.schemaFault, env.volumeFault, env.globResult,
          env.readLocal, env.uploadFault, f⟩ st).1 = (runMainCore env st).1) ∧
    (env.globResult ≠ [] → .summaryTablesCreated ∈ (runMainCore env st).2) := by
  refine ⟨?_, ?_, ?_⟩
  · unfold runMainCore
    cases h : env.globResult.isEmpty <;> simp [h]
  · intro f
    have hp : provisionPhase ⟨env.clientInit, env.schemaFault, env.volumeFault,
        env.globResult, env.readLocal, env.uploadFault, f⟩ st =
        provisionPhase env st := rfl
    have hu := uploadAll_readCsv_irrel env f
    cases h : env.globResult.isEmpty <;> simp [runMainCore, h, hp, hu]
  · intro hg
    have hne : env.globResult.isEmpty = false := by
      cases hgr : env.globResult with
      | nil => exact absurd hgr hg
      | cons a t => rfl
    simp [runMainCore, hne]

/-- C10 witness: a run with one matched file, evaluated concretely. -/
theorem table_step_no_remote_mutation_witness :
    (runMainCore
        ⟨.ok (), none, none, ["data/synthetic-a.csv"],
          fun _ => .ok [1], fun _ => none, fun _ => .ok (7, 3)⟩
        ⟨[], [], []⟩).1 =
      (if (["data/synthetic-a.csv"] : List String).isEmpty then
        (provisionPhase
            ⟨.ok (), none, none, ["data/synthetic-a.csv"],
              fun _ => .ok [1], fun _ => none, fun _ => .ok (7, 3)⟩
            ⟨[], [], []⟩).1
       else { (provisionPhase
            ⟨.ok (), none, none, ["data/synthetic-a.csv"],
              fun _ => .ok [1], fun _ => none, fun _ => .ok (7, 3)⟩
            ⟨[], [], []⟩).1 with
              files := (uploadAll
                ⟨.ok (), none, none, ["data/synthetic-a.csv"],
                  fun _ => .ok [1], fun _ => none, fun _ => .ok (7, 3)⟩
                ((provisionPhase
                    ⟨.ok (), none, none, ["data/synthetic-a.csv"],
                      fun _ => .ok [1], fun _ => none, fun _ => .ok (7, 3)⟩
                    ⟨[], [], []⟩).1).files
                ["data/synthetic-a.csv"]).1 }) ∧
    (∀ f : String → Except String (Nat × Nat),
      (runMainCore
        ⟨.ok (), none, none, ["data/synthetic-a.csv"],
          fun _ => .ok [1], fun _ => none, f⟩ ⟨[], [], []⟩).1 =
      (runMainCore
        ⟨.ok (), none, none, ["data/synthetic-a.csv"],
          fun _ => .ok [1], fun _ => none, fun _ => .ok (7, 3)⟩
        ⟨[], [], []⟩).1) ∧
    (["data/synthetic-a.csv"] ≠ ([] : List String) →
      .summaryTablesCreated ∈
        (runMainCore
          ⟨.ok (), none, none, ["data/synthetic-a.csv"],
            fun _ => .ok [1], fun _ => none, fun _ => .ok (7, 3)⟩
          ⟨[], [], []⟩).2) :=
  table_step_no_remote_mutation
    ⟨.ok (), none, none, ["data/synthetic-a.csv"],
      fun _ => .ok [1], fun _ => none, fun _ => .ok (7, 3)⟩
    ⟨[], [], []⟩

end MoorCare
